import Mathlib

/-!
Verification of the indicator / signal-fusion / trade-lifecycle engine of the
ai-trader backend.  The Python source (main.py and the strategies package) is
shallowly embedded: per-bar dictionaries become structures with Option-valued
fields, Python floats become exact rationals, Python round (half to even)
becomes rne / round2, and code that can raise a TypeError is embedded in the
Except monad.
-/

/-- Python round(q): nearest integer, exact halves to the even integer. -/
def rne (q : ℚ) : ℤ :=
  if Int.fract q < 1/2 then ⌊q⌋
  else if 1/2 < Int.fract q then ⌊q⌋ + 1
  else if ⌊q⌋ % 2 = 0 then ⌊q⌋ else ⌊q⌋ + 1

/-- Python round(q, 2): round to two decimal places, halves to even. -/
def round2 (q : ℚ) : ℚ := (rne (100 * q) : ℚ) / 100

/-- main.py nearest_strike: int(round(price / step) * step). -/
def nearest_strike (price : ℚ) (step : ℤ) : ℤ := rne (price / (step : ℚ)) * step

/-- main.py pick_strike delegates to nearest_strike. -/
def pick_strike (spot : ℚ) (step : ℤ) : ℤ := nearest_strike spot step

/-- main.py option_premium: max(40, spot * 0.004). -/
def option_premium (spot : ℚ) : ℚ := max 40 (spot * 0.004)

/-- Trade status strings of main.py: OPEN, SL HIT, TARGET HIT. -/
inductive Status where
  | OPEN
  | SL_HIT
  | TARGET_HIT
deriving DecidableEq

/-- Option type strings of main.py: CE, PE. -/
inductive OptType where
  | CE
  | PE
deriving DecidableEq

/-- The trade dictionary built by start_option_trade. -/
structure Trade where
  symbol : String
  expiry : String
  strike : ℤ
  type : OptType
  entry : ℚ
  sl : ℚ
  target : ℚ
  trail : Bool
  status : Status
deriving DecidableEq

/-- Signal strings: BUY, SELL, NONE. -/
inductive Signal where
  | BUY
  | SELL
  | NONE
deriving DecidableEq

/-- main.py STRIKE_STEP table. -/
def STRIKE_STEP (symbol : String) : Option ℤ :=
  if symbol = "NIFTY" then some 50
  else if symbol = "FINNIFTY" then some 50
  else if symbol = "BANKNIFTY" then some 100
  else none

/-- main.py start_option_trade.  next_expiry() reads the wall clock, so the
expiry string is passed in as a parameter; the chart endpoint guards that the
symbol is a key of the configuration tables, so the step lookup uses getD. -/
def start_option_trade (signal : Signal) (spot : ℚ) (symbol exp : String) : Trade :=
  let step := (STRIKE_STEP symbol).getD 0
  let opt_type := if signal = Signal.BUY then OptType.CE else OptType.PE
  let strike := pick_strike spot step
  let premium := option_premium spot
  { symbol := symbol
    expiry := exp
    strike := strike
    type := opt_type
    entry := round2 premium
    sl := round2 (premium * 0.7)
    target := round2 (premium * 1.5)
    trail := false
    status := Status.OPEN }

/-- main.py manage_trade: breakeven snap, trailing ratchet, then the two
independent exit checks, in source order. -/
def manage_trade (trade : Trade) (premium : ℚ) : Trade :=
  let entry := trade.entry
  let t1 :=
    if trade.trail = false ∧ premium ≥ entry * 1.1
      then { trade with sl := entry, trail := true } else trade
  let t2 :=
    if t1.trail then { t1 with sl := max t1.sl (premium * 0.95) } else t1
  let t3 :=
    if premium ≤ t2.sl then { t2 with status := Status.SL_HIT } else t2
  if premium ≥ t3.target then { t3 with status := Status.TARGET_HIT } else t3

/-- |rne q - q| is at most a half. -/
theorem abs_rne_sub_le (q : ℚ) : |(rne q : ℚ) - q| ≤ 1/2 := by
  have hfr : (⌊q⌋ : ℚ) = q - Int.fract q := by
    unfold Int.fract; ring
  have h0 : 0 ≤ Int.fract q := Int.fract_nonneg q
  have h1 : Int.fract q < 1 := Int.fract_lt_one q
  unfold rne
  split
  · rw [hfr]
    rw [abs_le]
    constructor <;> [linarith; linarith]
  · split
    · push_cast
      rw [hfr]
      rw [abs_le]
      constructor <;> [linarith; linarith]
    · have heq : Int.fract q = 1/2 := by linarith
      split
      · rw [hfr, heq]
        rw [abs_le]
        constructor <;> linarith
      · push_cast
        rw [hfr, heq]
        rw [abs_le]
        constructor <;> linarith

/-- |round2 q - q| is at most 1/200 (half of one hundredth). -/
theorem abs_round2_sub_le (q : ℚ) : |round2 q - q| ≤ 1/200 := by
  unfold round2
  have h := abs_rne_sub_le (100 * q)
  have h100 : |((rne (100 * q) : ℚ)) / 100 - q| = |(rne (100 * q) : ℚ) - 100 * q| / 100 := by
    rw [← abs_of_pos (show (0:ℚ) < 100 by norm_num), ← abs_div]
    congr 1
    field_simp
  rw [h100]
  linarith [abs_nonneg ((rne (100 * q) : ℚ) - 100 * q)]

/- ================= Claim C1 ================= -/

/-- Claim C1 counterexample: a reachable open trade (entry 100, trailed stop 190,
target 150) at bar premium 160 satisfies both exit conditions, yet manage_trade
records TARGET HIT, not SL HIT: the target check runs second and overwrites. -/
theorem manage_trade_tie_not_sl :
    (160 : ℚ) ≤ (Trade.mk "NIFTY" "x" 25000 OptType.CE 100 190 150 true Status.OPEN).sl ∧
    (Trade.mk "NIFTY" "x" 25000 OptType.CE 100 190 150 true Status.OPEN).target ≤ (160 : ℚ) ∧
    (manage_trade (Trade.mk "NIFTY" "x" 25000 OptType.CE 100 190 150 true Status.OPEN) 160).status
      ≠ Status.SL_HIT := by
  refine ⟨by norm_num, by norm_num, ?_⟩
  have h : (manage_trade (Trade.mk "NIFTY" "x" 25000 OptType.CE 100 190 150 true Status.OPEN)
      160).status = Status.TARGET_HIT := by norm_num [manage_trade]
  rw [h]
  decide

/-- Claim C1 (amended): when both exit conditions hold on a bar, the trade ends
the bar as TARGET HIT — the target check is evaluated after the stop-loss check
and overwrites it, so the target wins the tie, not the stop loss. -/
theorem manage_trade_tie_target_wins (t : Trade) (p : ℚ)
    (hsl : p ≤ t.sl) (htg : t.target ≤ p) :
    (manage_trade t p).status = Status.TARGET_HIT := by
  simp only [manage_trade]
  repeat' split
  all_goals simp_all

/-- Claim C1 witness: the amended theorem applied to the concrete tied bar. -/
theorem manage_trade_tie_target_wins_witness :
    (manage_trade (Trade.mk "NIFTY" "x" 25000 OptType.CE 100 190 150 true Status.OPEN) 160).status
      = Status.TARGET_HIT :=
  manage_trade_tie_target_wins
    (Trade.mk "NIFTY" "x" 25000 OptType.CE 100 190 150 true Status.OPEN) 160
    (by norm_num) (by norm_num)

/- ================= Claim C2 ================= -/

/-- Claim C2 counterexample: with entry 100 and bar premium 110 the breakeven
snap is immediately overridden by the trailing ratchet in the same update, so
the stop loss ends the bar at max(100, 104.5) = 104.5, not 100. -/
theorem manage_trade_breakeven_not_entry :
    (manage_trade (Trade.mk "NIFTY" "x" 25000 OptType.CE 100 70 150 false Status.OPEN) 110).trail
      = true ∧
    (manage_trade (Trade.mk "NIFTY" "x" 25000 OptType.CE 100 70 150 false Status.OPEN) 110).sl
      ≠ 100 := by
  constructor
  · norm_num [manage_trade]
  · norm_num [manage_trade]

/-- Claim C2 (amended): for an open trade with trailing off and premium at or
above 1.1 times entry, the update sets trailing on, but the stop loss ends the
bar at max(entry, 0.95 premium) — the snap to entry is immediately followed by
the trailing ratchet, which raises it to 0.95 premium (above entry). -/
theorem manage_trade_breakeven_then_ratchet (t : Trade) (p : ℚ)
    (h : t.trail = false) (hp : p ≥ t.entry * 1.1) :
    (manage_trade t p).trail = true ∧ (manage_trade t p).sl = max t.entry (p * 0.95) := by
  simp only [manage_trade]
  repeat' split
  all_goals simp_all

/-- Claim C2 witness: entry 100, premium 110 gives stop loss 104.5. -/
theorem manage_trade_breakeven_then_ratchet_witness :
    (manage_trade (Trade.mk "NIFTY" "x" 25000 OptType.CE 100 70 150 false Status.OPEN) 110).trail
      = true ∧
    (manage_trade (Trade.mk "NIFTY" "x" 25000 OptType.CE 100 70 150 false Status.OPEN) 110).sl
      = max 100 (110 * 0.95) :=
  manage_trade_breakeven_then_ratchet
    (Trade.mk "NIFTY" "x" 25000 OptType.CE 100 70 150 false Status.OPEN) 110
    rfl (by norm_num)

/- ================= Claim C4 ================= -/

/-- Claim C4 counterexample: pick_strike(24974, 50) is 24950, not the 25000 the
claim asserts (24974 is nearer 24950); and the exact half-step case 24925 goes
to the even multiple 24900, not away from zero. -/
theorem pick_strike_24974_not_25000 :
    pick_strike 24974 50 = 24950 ∧ pick_strike 24974 50 ≠ 25000 ∧
    pick_strike 24925 50 = 24900 := by
  norm_num [pick_strike, nearest_strike, rne, Int.fract]

/-- Claim C4 (amended): pick_strike returns the spot rounded to the nearest
multiple of the step (within half a step), with exact half-step ties resolved
to the even multiple (Python banker rounding); pick_strike(24987, 50) = 25000
but pick_strike(24974, 50) = 24950. -/
theorem pick_strike_nearest (spot : ℚ) (step : ℤ) (h : 0 < step) :
    |spot - (pick_strike spot step : ℚ)| ≤ (step : ℚ) / 2 ∧
    pick_strike 24987 50 = 25000 ∧ pick_strike 24974 50 = 24950 ∧
    pick_strike 24925 50 = 24900 := by
  refine ⟨?_, by norm_num [pick_strike, nearest_strike, rne, Int.fract],
    by norm_num [pick_strike, nearest_strike, rne, Int.fract],
    by norm_num [pick_strike, nearest_strike, rne, Int.fract]⟩
  have hs : (0 : ℚ) < (step : ℚ) := by exact_mod_cast h
  have hr := abs_rne_sub_le (spot / (step : ℚ))
  have hkey : spot - (pick_strike spot step : ℚ)
      = -(((rne (spot / (step : ℚ)) : ℚ) - spot / (step : ℚ)) * (step : ℚ)) := by
    simp only [pick_strike, nearest_strike]
    push_cast
    field_simp
  rw [hkey, abs_neg, abs_mul, abs_of_pos hs]
  calc |(rne (spot / (step : ℚ)) : ℚ) - spot / (step : ℚ)| * (step : ℚ)
      ≤ (1/2) * (step : ℚ) := by
        exact mul_le_mul_of_nonneg_right hr (le_of_lt hs)
    _ = (step : ℚ) / 2 := by ring

/-- Claim C4 witness: the amended theorem at spot 24987, step 50. -/
theorem pick_strike_nearest_witness :
    |(24987 : ℚ) - (pick_strike 24987 50 : ℚ)| ≤ (50 : ℚ) / 2 ∧
    pick_strike 24987 50 = 25000 ∧ pick_strike 24974 50 = 24950 ∧
    pick_strike 24925 50 = 24900 :=
  pick_strike_nearest 24987 50 (by norm_num)

/- ================= Claim C8 ================= -/

/-- One update step keeps trailing on and never lowers the stop loss. -/
theorem manage_trade_sl_step (t : Trade) (p : ℚ) (h : t.trail = true) :
    t.sl ≤ (manage_trade t p).sl ∧ (manage_trade t p).trail = true := by
  simp only [manage_trade]
  repeat' split
  all_goals simp_all

/-- Claim C8: once trailingActive is true, the stop loss is non-decreasing
across every later sequence of per-bar manage_trade updates, and trailing
stays on. -/
theorem trailing_sl_monotone (t : Trade) (ps : List ℚ) (h : t.trail = true) :
    t.sl ≤ (ps.foldl manage_trade t).sl ∧ (ps.foldl manage_trade t).trail = true := by
  induction ps generalizing t with
  | nil => exact ⟨le_refl _, h⟩
  | cons p ps ih =>
    have hstep := manage_trade_sl_step t p h
    have hrest := ih (manage_trade t p) hstep.2
    exact ⟨le_trans hstep.1 hrest.1, hrest.2⟩

/-- Claim C8 witness: a trailed trade through premiums 200 then 185. -/
theorem trailing_sl_monotone_witness :
    (Trade.mk "NIFTY" "x" 25000 OptType.CE 100 100 150 true Status.OPEN).sl
      ≤ (List.foldl manage_trade
          (Trade.mk "NIFTY" "x" 25000 OptType.CE 100 100 150 true Status.OPEN) [200, 185]).sl ∧
    (List.foldl manage_trade
        (Trade.mk "NIFTY" "x" 25000 OptType.CE 100 100 150 true Status.OPEN) [200, 185]).trail
      = true :=
  trailing_sl_monotone
    (Trade.mk "NIFTY" "x" 25000 OptType.CE 100 100 150 true Status.OPEN) [200, 185] rfl

/- ================= Claim C10 ================= -/

/-- Claim C10: a per-bar manage_trade update can change only sl, trail and
status; the symbol, expiry, strike, option type, entry and target fields are
unchanged for every trade and every bar premium. -/
theorem manage_trade_frame (t : Trade) (p : ℚ) :
    (manage_trade t p).symbol = t.symbol ∧ (manage_trade t p).expiry = t.expiry ∧
    (manage_trade t p).strike = t.strike ∧ (manage_trade t p).type = t.type ∧
    (manage_trade t p).entry = t.entry ∧ (manage_trade t p).target = t.target := by
  simp only [manage_trade]
  repeat' split
  all_goals simp_all

/- ================= Indicator engine: RSI ================= -/

/-- Pandas float values relevant to the RSI pipeline: NaN, plus or minus
infinity, or a finite value. -/
inductive PFloat where
  | nan
  | inf
  | ninf
  | fin (q : ℚ)
deriving DecidableEq

/-- IEEE addition as performed by pandas on Series elements. -/
def padd : PFloat → PFloat → PFloat
  | PFloat.nan, _ => PFloat.nan
  | _, PFloat.nan => PFloat.nan
  | PFloat.inf, PFloat.inf => PFloat.inf
  | PFloat.inf, PFloat.ninf => PFloat.nan
  | PFloat.inf, PFloat.fin _ => PFloat.inf
  | PFloat.ninf, PFloat.inf => PFloat.nan
  | PFloat.ninf, PFloat.ninf => PFloat.ninf
  | PFloat.ninf, PFloat.fin _ => PFloat.ninf
  | PFloat.fin _, PFloat.inf => PFloat.inf
  | PFloat.fin _, PFloat.ninf => PFloat.ninf
  | PFloat.fin a, PFloat.fin b => PFloat.fin (a + b)

/-- IEEE subtraction as performed by pandas on Series elements. -/
def psub : PFloat → PFloat → PFloat
  | PFloat.nan, _ => PFloat.nan
  | _, PFloat.nan => PFloat.nan
  | PFloat.inf, PFloat.inf => PFloat.nan
  | PFloat.inf, PFloat.ninf => PFloat.inf
  | PFloat.inf, PFloat.fin _ => PFloat.inf
  | PFloat.ninf, PFloat.inf => PFloat.ninf
  | PFloat.ninf, PFloat.ninf => PFloat.nan
  | PFloat.ninf, PFloat.fin _ => PFloat.ninf
  | PFloat.fin _, PFloat.inf => PFloat.ninf
  | PFloat.fin _, PFloat.ninf => PFloat.inf
  | PFloat.fin a, PFloat.fin b => PFloat.fin (a - b)

/-- IEEE division as performed by pandas on Series elements (numpy semantics:
x/0 is a signed infinity for x nonzero and NaN for x = 0). -/
def pdiv : PFloat → PFloat → PFloat
  | PFloat.nan, _ => PFloat.nan
  | _, PFloat.nan => PFloat.nan
  | PFloat.inf, PFloat.inf => PFloat.nan
  | PFloat.inf, PFloat.ninf => PFloat.nan
  | PFloat.ninf, PFloat.inf => PFloat.nan
  | PFloat.ninf, PFloat.ninf => PFloat.nan
  | PFloat.inf, PFloat.fin b => if b < 0 then PFloat.ninf else PFloat.inf
  | PFloat.ninf, PFloat.fin b => if b < 0 then PFloat.inf else PFloat.ninf
  | PFloat.fin _, PFloat.inf => PFloat.fin 0
  | PFloat.fin _, PFloat.ninf => PFloat.fin 0
  | PFloat.fin a, PFloat.fin b =>
      if b = 0 then
        (if 0 < a then PFloat.inf else if a < 0 then PFloat.ninf else PFloat.nan)
      else PFloat.fin (a / b)

/-- Close.diff(): consecutive differences; pandas puts NaN at position 0, so
element m of this list is the pandas diff at position m+1. -/
def diffList (closes : List ℚ) : List ℚ :=
  (closes.tail.zip closes).map (fun x => x.1 - x.2)

/-- gain.rolling(14).mean() at pandas position j: defined (finite) only when
the window holds 14 non-NaN diffs, i.e. when 14 <= j < length; gains clip the
diffs from below at 0. -/
def gainAvg (closes : List ℚ) (j : ℕ) : PFloat :=
  if j < 14 ∨ closes.length ≤ j then PFloat.nan
  else PFloat.fin (((((diffList closes).drop (j - 14)).take 14).map
    (fun d => max d 0)).sum / 14)

/-- loss.rolling(14).mean() at pandas position j: losses are the negated
diffs clipped from below at 0. -/
def lossAvg (closes : List ℚ) (j : ℕ) : PFloat :=
  if j < 14 ∨ closes.length ≤ j then PFloat.nan
  else PFloat.fin (((((diffList closes).drop (j - 14)).take 14).map
    (fun d => max (-d) 0)).sum / 14)

/-- rs = gain average / loss average, with pandas division semantics. -/
def rsAt (closes : List ℚ) (j : ℕ) : PFloat := pdiv (gainAvg closes j) (lossAvg closes j)

/-- RSI = 100 - 100/(1 + rs), elementwise with pandas float semantics. -/
def rsiAt (closes : List ℚ) (j : ℕ) : PFloat :=
  psub (PFloat.fin 100) (pdiv (PFloat.fin 100) (padd (PFloat.fin 1) (rsAt closes j)))

/- ================= Claim C5 ================= -/

/-- Claim C5 counterexample: on 15 strictly rising closes the window at bar 14
has loss average 0 and gain average 1, and the computed RSI is the numeric
value 100 (rs becomes +infinity and 100 - 100/(1+rs) collapses to 100), not an
absent value. -/
theorem rsi_loss_zero_numeric :
    lossAvg [0, 1, 2, 3, 4, 5, 6, 7, 8, 9, 10, 11, 12, 13, 14] 14 = PFloat.fin 0 ∧
    rsiAt [0, 1, 2, 3, 4, 5, 6, 7, 8, 9, 10, 11, 12, 13, 14] 14 = PFloat.fin 100 ∧
    PFloat.fin 100 ≠ PFloat.nan := by
  refine ⟨?_, ?_, by decide⟩ <;>
    norm_num [rsiAt, rsAt, gainAvg, lossAvg, diffList, padd, psub, pdiv,
      List.zip, List.zipWith]

/-- Claim C5 (amended): at a bar whose 14-bar loss average is 0, the RSI is
the numeric value 100 whenever the gain average is positive (the gain/loss
ratio becomes +infinity, and 100 - 100/(1+rs) evaluates to 100); the RSI is
absent (NaN) only when the gain average is 0 as well. -/
theorem rsi_loss_zero_cases (closes : List ℚ) (j : ℕ) (g : ℚ)
    (hg : gainAvg closes j = PFloat.fin g) (hl : lossAvg closes j = PFloat.fin 0) :
    (0 < g → rsiAt closes j = PFloat.fin 100) ∧
    (g = 0 → rsiAt closes j = PFloat.nan) := by
  constructor
  · intro hpos
    have h1 : rsAt closes j = PFloat.inf := by
      unfold rsAt
      rw [hg, hl]
      show (if (0 : ℚ) = 0 then
            (if 0 < g then PFloat.inf else if g < 0 then PFloat.ninf else PFloat.nan)
          else PFloat.fin (g / 0)) = PFloat.inf
      rw [if_pos rfl, if_pos hpos]
    unfold rsiAt
    rw [h1]
    dsimp only [padd, pdiv, psub]
    norm_num
  · intro hzero
    subst hzero
    have h1 : rsAt closes j = PFloat.nan := by
      unfold rsAt
      rw [hg, hl]
      show (if (0 : ℚ) = 0 then
            (if (0 : ℚ) < 0 then PFloat.inf else if (0 : ℚ) < 0 then PFloat.ninf else PFloat.nan)
          else PFloat.fin (0 / 0)) = PFloat.nan
      norm_num
    unfold rsiAt
    rw [h1]
    rfl

/-- Claim C5 witness: the amended theorem at the 15 rising closes. -/
theorem rsi_loss_zero_cases_witness :
    (0 < (1 : ℚ) →
      rsiAt [0, 1, 2, 3, 4, 5, 6, 7, 8, 9, 10, 11, 12, 13, 14] 14 = PFloat.fin 100) ∧
    ((1 : ℚ) = 0 →
      rsiAt [0, 1, 2, 3, 4, 5, 6, 7, 8, 9, 10, 11, 12, 13, 14] 14 = PFloat.nan) :=
  rsi_loss_zero_cases [0, 1, 2, 3, 4, 5, 6, 7, 8, 9, 10, 11, 12, 13, 14] 14 1
    (by norm_num [gainAvg, diffList, List.zip, List.zipWith])
    (by norm_num [lossAvg, diffList, List.zip, List.zipWith])

/- ================= Strategy set ================= -/

/-- One indicator snapshot row as the chart endpoint builds it: each field
already sanitized to None (absent) or a finite float. -/
structure Snapshot where
  EMA9 : Option ℚ
  EMA21 : Option ℚ
  RSI : Option ℚ
deriving DecidableEq

/-- Python a < b on sanitized values: comparing None raises TypeError. -/
def pyLt (a b : Option ℚ) : Except Unit Bool :=
  match a, b with
  | some x, some y => Except.ok (decide (x < y))
  | _, _ => Except.error ()

/-- Python a > b on sanitized values: comparing None raises TypeError. -/
def pyGt (a b : Option ℚ) : Except Unit Bool :=
  match a, b with
  | some x, some y => Except.ok (decide (x > y))
  | _, _ => Except.error ()

/-- Python short-circuit and: the right operand is evaluated only when the
left one is truthy. -/
def pyAnd (a b : Except Unit Bool) : Except Unit Bool := do
  let x ← a
  if x then b else pure false

/-- main.py ema_signal: guards only prev is None; a present row or prev dict
with a None EMA field makes the comparison raise (Except.error). -/
def ema_signal (row : Snapshot) (prev : Option Snapshot) : Except Unit Signal :=
  match prev with
  | none => Except.ok Signal.NONE
  | some p => do
      let buyCross ← pyAnd (pyLt p.EMA9 p.EMA21) (pyGt row.EMA9 row.EMA21)
      if buyCross then return Signal.BUY
      let sellCross ← pyAnd (pyGt p.EMA9 p.EMA21) (pyLt row.EMA9 row.EMA21)
      if sellCross then return Signal.SELL
      return Signal.NONE

/-- main.py rsi_filter: explicitly guards a None RSI. -/
def rsi_filter (row : Snapshot) : Signal :=
  match row.RSI with
  | none => Signal.NONE
  | some r => if r < 30 then Signal.BUY else if r > 70 then Signal.SELL else Signal.NONE

/-- main.py final_signal: EMA crossover AND RSI filter must agree. -/
def final_signal (row : Snapshot) (prev : Option Snapshot) : Except Unit Signal := do
  let s1 ← ema_signal row prev
  let s2 := rsi_filter row
  return (if s1 = s2 then s1 else Signal.NONE)

/- ================= Claim C6 ================= -/

/-- Claim C6: ema_signal raises a TypeError (an exception, not a NONE verdict)
when the current row has absent EMA fields while prev is a present snapshot:
only a wholly absent prev is guarded, contradicting the no-exception contract;
rsi_filter by contrast does guard its absent field. -/
theorem ema_signal_raises_on_absent_field :
    ema_signal (Snapshot.mk none none none) (some (Snapshot.mk (some 1) (some 2) (some 50)))
      = Except.error () ∧
    rsi_filter (Snapshot.mk none none none) = Signal.NONE := by
  constructor
  · norm_num [ema_signal, pyAnd, pyLt, pyGt, Bind.bind, Except.bind]
  · rfl

/- ================= Signal fusion ================= -/

/-- One strategy verdict dict: signal, confidence, reason. -/
structure StratVerdict where
  signal : Signal
  confidence : ℕ
  reason : String
deriving DecidableEq

/-- The fused dict returned by combine_signals. -/
structure Fused where
  final_signal : Signal
  strength : ℕ
  confidence : ℕ
  reason : String
deriving DecidableEq

/-- strategies/confidence_engine.py combine_signals: count BUY and SELL votes,
check BUY first. -/
def combine_signals (signals : List StratVerdict) : Fused :=
  let buy := signals.countP (fun s => decide (s.signal = Signal.BUY))
  let sell := signals.countP (fun s => decide (s.signal = Signal.SELL))
  if buy ≥ 2 then
    { final_signal := Signal.BUY, strength := buy, confidence := buy * 30,
      reason := "Multiple strategies confirm BUY" }
  else if sell ≥ 2 then
    { final_signal := Signal.SELL, strength := sell, confidence := sell * 30,
      reason := "Multiple strategies confirm SELL" }
  else
    { final_signal := Signal.NONE, strength := 0, confidence := 0,
      reason := "No strong confirmation" }

/- ================= Claim C7 ================= -/

/-- Claim C7: combine_signals returns BUY with confidence 30 times the BUY
votes whenever BUY votes reach 2 (BUY is checked before SELL), SELL likewise
only when BUY votes fall short, otherwise NONE with confidence 0; and the
scenario [BUY, BUY, SELL] fuses to BUY with confidence 60. -/
theorem combine_signals_spec (signals : List StratVerdict) :
    (signals.countP (fun s => decide (s.signal = Signal.BUY)) ≥ 2 →
      combine_signals signals =
        { final_signal := Signal.BUY,
          strength := signals.countP (fun s => decide (s.signal = Signal.BUY)),
          confidence := signals.countP (fun s => decide (s.signal = Signal.BUY)) * 30,
          reason := "Multiple strategies confirm BUY" }) ∧
    (signals.countP (fun s => decide (s.signal = Signal.BUY)) < 2 →
      signals.countP (fun s => decide (s.signal = Signal.SELL)) ≥ 2 →
      combine_signals signals =
        { final_signal := Signal.SELL,
          strength := signals.countP (fun s => decide (s.signal = Signal.SELL)),
          confidence := signals.countP (fun s => decide (s.signal = Signal.SELL)) * 30,
          reason := "Multiple strategies confirm SELL" }) ∧
    (signals.countP (fun s => decide (s.signal = Signal.BUY)) < 2 →
      signals.countP (fun s => decide (s.signal = Signal.SELL)) < 2 →
      combine_signals signals =
        { final_signal := Signal.NONE, strength := 0, confidence := 0,
          reason := "No strong confirmation" }) ∧
    combine_signals
        [StratVerdict.mk Signal.BUY 70 "a", StratVerdict.mk Signal.BUY 65 "b",
         StratVerdict.mk Signal.SELL 80 "c"] =
      { final_signal := Signal.BUY, strength := 2, confidence := 60,
        reason := "Multiple strategies confirm BUY" } := by
  refine ⟨?_, ?_, ?_, by decide⟩
  · intro h
    simp only [combine_signals]
    rw [if_pos h]
  · intro h1 h2
    simp only [combine_signals]
    rw [if_neg (by omega), if_pos h2]
  · intro h1 h2
    simp only [combine_signals]
    rw [if_neg (by omega), if_neg (by omega)]

/-- Claim C7 witness: the BUY branch of the fusion rule at the scenario list. -/
theorem combine_signals_spec_witness :
    combine_signals
        [StratVerdict.mk Signal.BUY 70 "a", StratVerdict.mk Signal.BUY 65 "b",
         StratVerdict.mk Signal.SELL 80 "c"] =
      { final_signal := Signal.BUY,
        strength := List.countP (fun s => decide (s.signal = Signal.BUY))
          [StratVerdict.mk Signal.BUY 70 "a", StratVerdict.mk Signal.BUY 65 "b",
           StratVerdict.mk Signal.SELL 80 "c"],
        confidence := List.countP (fun s => decide (s.signal = Signal.BUY))
          [StratVerdict.mk Signal.BUY 70 "a", StratVerdict.mk Signal.BUY 65 "b",
           StratVerdict.mk Signal.SELL 80 "c"] * 30,
        reason := "Multiple strategies confirm BUY" } :=
  (combine_signals_spec
    [StratVerdict.mk Signal.BUY 70 "a", StratVerdict.mk Signal.BUY 65 "b",
     StratVerdict.mk Signal.SELL 80 "c"]).1 (by decide)

/- ================= Backtest driver (chart endpoint) ================= -/

/-- One dataframe row as the chart loop reads it: the three sanitized
indicator fields plus the sanitized Close (spot). -/
structure SnapRow where
  EMA9 : Option ℚ
  EMA21 : Option ℚ
  RSI : Option ℚ
  close : Option ℚ
deriving DecidableEq

/-- The indicator snapshot dict the loop builds from a row. -/
def toSnap (r : SnapRow) : Snapshot := Snapshot.mk r.EMA9 r.EMA21 r.RSI

/-- One journal entry: the closed trade dict merged with exit and pnl. -/
structure JEntry where
  trade : Trade
  exit : ℚ
  pnl : ℚ
deriving DecidableEq

/-- One annotated output candle (the timestamp is carried verbatim from the
dataframe and plays no role in the engine, so it is omitted). -/
structure Candle where
  spot : ℚ
  premium : ℚ
  signal : Signal
  capital : ℚ
deriving DecidableEq

/-- The loop state of the chart endpoint. -/
structure ChartState where
  capital : ℚ
  trade : Option Trade
  journal : List JEntry
  candles : List Candle
deriving DecidableEq

/-- main.py START_CAPITAL. -/
def START_CAPITAL : ℚ := 100000

/-- One loop iteration input: ((row5, prev5), (row15, prev15)). -/
abbrev BarPair := (SnapRow × SnapRow) × (SnapRow × SnapRow)

/-- Python raises a TypeError when arithmetic meets a sanitized None. -/
def expectNum (a : Option ℚ) : Except Unit ℚ :=
  match a with
  | some q => Except.ok q
  | none => Except.error ()

/-- The fused per-bar signal: each timeframe's final_signal, which must agree,
else NONE (main.py lines 216-218). -/
def barSignal (bar : BarPair) : Except Unit Signal := do
  let sig5 ← final_signal (toSnap bar.1.1) (some (toSnap bar.1.2))
  let sig15 ← final_signal (toSnap bar.2.1) (some (toSnap bar.2.2))
  return (if sig5 = sig15 then sig5 else Signal.NONE)

/-- The pure part of one loop iteration, after the signal and spot are known:
optional entry, per-bar trade update, close-out into the journal, candle
append (main.py lines 220-240). -/
def chartStepCore (symbol exp : String) (st : ChartState) (sig : Signal) (spot : ℚ) :
    ChartState :=
  let premium := option_premium spot
  let tr1 :=
    if st.trade = none ∧ sig ≠ Signal.NONE
      then some (start_option_trade sig spot symbol exp) else st.trade
  match tr1 with
  | none =>
      { st with candles := st.candles ++ [Candle.mk spot (round2 premium) sig (round2 st.capital)] }
  | some t =>
      let t2 := manage_trade t premium
      if t2.status ≠ Status.OPEN then
        let pnl := premium - t2.entry
        { capital := st.capital + pnl
          trade := none
          journal := st.journal ++ [JEntry.mk t2 (round2 premium) (round2 pnl)]
          candles := st.candles ++
            [Candle.mk spot (round2 premium) sig (round2 (st.capital + pnl))] }
      else
        { st with trade := some t2
                  candles := st.candles ++
                    [Candle.mk spot (round2 premium) sig (round2 st.capital)] }

/-- One full loop iteration: signal fusion (which can raise), spot extraction
(premium arithmetic raises on a None Close), then the pure update. -/
def chartStep (symbol exp : String) (st : ChartState) (bar : BarPair) :
    Except Unit ChartState := do
  let sig ← barSignal bar
  let spot ← expectNum bar.1.1.close
  return chartStepCore symbol exp st sig spot

/-- The loop state before the first iteration. -/
def initState : ChartState := ChartState.mk START_CAPITAL none [] []

/-- The iteration inputs for range(1, min(len5, len15)): position i pairs row i
with row i-1 on each timeframe, which is the zip of each list's tail with the
list itself. -/
def chartBars (rows5 rows15 : List SnapRow) : List BarPair :=
  (rows5.tail.zip rows5).zip (rows15.tail.zip rows15)

/-- The whole chart backtest loop over the two aligned row sequences. -/
def chartRun (symbol exp : String) (rows5 rows15 : List SnapRow) :
    Except Unit ChartState :=
  (chartBars rows5 rows15).foldlM (chartStep symbol exp) initState

/-- Sum of the pnl fields of the journal. -/
def sumPnl (j : List JEntry) : ℚ := (j.map JEntry.pnl).sum

theorem exceptBind_ok {α β : Type} (a : α) (f : α → Except Unit β) :
    (Except.ok a >>= f) = f a := rfl

theorem exceptBind_error {α β : Type} (f : α → Except Unit β) :
    ((Except.error () : Except Unit α) >>= f) = Except.error () := rfl

/-- Inversion of a successful loop iteration: the signal fused without raising,
the spot was present, and the result is the pure update. -/
theorem chartStep_ok (symbol exp : String) (st : ChartState) (bar : BarPair)
    (st' : ChartState) (h : chartStep symbol exp st bar = Except.ok st') :
    ∃ sig spot, barSignal bar = Except.ok sig ∧ bar.1.1.close = some spot ∧
      st' = chartStepCore symbol exp st sig spot := by
  unfold chartStep at h
  cases hb : barSignal bar with
  | error e =>
      rw [hb] at h
      rw [show e = () from rfl, exceptBind_error] at h
      exact Except.noConfusion h
  | ok sig =>
      rw [hb] at h
      rw [exceptBind_ok] at h
      cases hc : bar.1.1.close with
      | none =>
          simp only [expectNum, hc, exceptBind_error] at h
          exact Except.noConfusion h
      | some spot =>
          simp only [expectNum, hc, exceptBind_ok] at h
          exact ⟨sig, spot, rfl, rfl, (Except.ok.inj h).symm⟩

/- ================= Claim C9 ================= -/

/-- Claim C9: across one loop iteration of the chart backtest, (a) with no
open trade and a fused NONE signal no trade is opened, (b) while a trade is
open the slot only ever carries that same trade through manage_trade or is
cleared — a new trade is never opened over an existing one, (c) any trade left
in the slot after the bar has status OPEN, and (d) every journal entry is
either carried over or a newly closed (non-OPEN) trade — so at most one open
trade exists at any bar index. -/
theorem chart_single_trade_slot (symbol exp : String) (st st' : ChartState) (bar : BarPair)
    (hstep : chartStep symbol exp st bar = Except.ok st') :
    (st.trade = none → barSignal bar = Except.ok Signal.NONE → st'.trade = none) ∧
    (∀ t, st.trade = some t →
      st'.trade = none ∨ ∃ spot, bar.1.1.close = some spot ∧
        st'.trade = some (manage_trade t (option_premium spot))) ∧
    (∀ t1, st'.trade = some t1 → t1.status = Status.OPEN) ∧
    (∀ e, e ∈ st'.journal → e ∈ st.journal ∨ e.trade.status ≠ Status.OPEN) := by
  obtain ⟨sig, spot, hsig, hclose, rfl⟩ := chartStep_ok symbol exp st bar st' hstep
  refine ⟨?_, ?_, ?_, ?_⟩
  · intro hnone hsigRes
    rw [hsig] at hsigRes
    have hsigNone : sig = Signal.NONE := Except.ok.inj hsigRes
    subst hsigNone
    simp [chartStepCore, hnone]
  · intro t ht
    simp only [chartStepCore, ht]
    rw [if_neg (by simp)]
    dsimp only
    by_cases hopen : (manage_trade t (option_premium spot)).status = Status.OPEN
    · right
      refine ⟨spot, hclose, ?_⟩
      rw [if_neg (by simp [hopen])]
    · left
      rw [if_pos (by simp [hopen])]
  · intro t1 ht1
    simp only [chartStepCore] at ht1
    split at ht1
    · rename_i heq
      simp only at ht1
      split at heq
      · exact Option.noConfusion heq
      · rw [heq] at ht1
        exact Option.noConfusion ht1
    · rename_i t heq
      split at ht1 <;> rename_i hopen
      · simp at ht1
      · simp only [Option.some.injEq] at ht1
        subst ht1
        push_neg at hopen
        exact hopen
  · intro e he
    simp only [chartStepCore] at he
    split at he
    · exact Or.inl he
    · rename_i t heq
      split at he <;> rename_i hopen
      · simp only [List.mem_append, List.mem_singleton] at he
        cases he with
        | inl h => exact Or.inl h
        | inr h => subst h; exact Or.inr hopen
      · exact Or.inl he

/-- Claim C9 witness: a NONE bar on the initial state leaves the slot empty. -/
theorem chart_single_trade_slot_witness :
    (ChartState.mk 100000 none [] [Candle.mk 100 40 Signal.NONE 100000]).trade = none := by
  have hstep : chartStep "NIFTY" "e" initState
      ((SnapRow.mk (some 1) (some 2) (some 50) (some 100),
        SnapRow.mk (some 1) (some 2) (some 50) (some 100)),
       (SnapRow.mk (some 1) (some 2) (some 50) (some 100),
        SnapRow.mk (some 1) (some 2) (some 50) (some 100)))
      = Except.ok (ChartState.mk 100000 none [] [Candle.mk 100 40 Signal.NONE 100000]) := by
    norm_num [chartStep, chartStepCore, barSignal, final_signal, ema_signal, rsi_filter, pyAnd,
      pyLt, pyGt, toSnap, expectNum, initState, START_CAPITAL, option_premium, round2, rne,
      Int.fract, Bind.bind, Except.bind, Pure.pure, Except.pure]
  have hsig : barSignal
      ((SnapRow.mk (some 1) (some 2) (some 50) (some 100),
        SnapRow.mk (some 1) (some 2) (some 50) (some 100)),
       (SnapRow.mk (some 1) (some 2) (some 50) (some 100),
        SnapRow.mk (some 1) (some 2) (some 50) (some 100)))
      = Except.ok Signal.NONE := by
    norm_num [barSignal, final_signal, ema_signal, rsi_filter, pyAnd, pyLt, pyGt, toSnap,
      Bind.bind, Except.bind, Pure.pure, Except.pure]
  exact (chart_single_trade_slot "NIFTY" "e" initState _ _ hstep).1 rfl hsig

/- ================= Claim C3 ================= -/

theorem sumPnl_append (j : List JEntry) (e : JEntry) :
    sumPnl (j ++ [e]) = sumPnl j + e.pnl := by
  simp [sumPnl]

/-- One pure iteration keeps the capital within 1/200 per journal entry of the
start capital plus the journal pnl sum: capital moves by the exact pnl while
the journal records it rounded to 2 decimals. -/
theorem chartStepCore_capInv (symbol exp : String) (st : ChartState) (sig : Signal) (spot : ℚ)
    (h : |st.capital - (START_CAPITAL + sumPnl st.journal)| ≤ (st.journal.length : ℚ) / 200) :
    |(chartStepCore symbol exp st sig spot).capital -
        (START_CAPITAL + sumPnl (chartStepCore symbol exp st sig spot).journal)|
      ≤ ((chartStepCore symbol exp st sig spot).journal.length : ℚ) / 200 := by
  simp only [chartStepCore]
  split
  · simpa using h
  · rename_i t heq
    split
    · rename_i hopen
      simp only [sumPnl_append, List.length_append, List.length_singleton]
      have hr := abs_round2_sub_le (option_premium spot - (manage_trade t (option_premium spot)).entry)
      have habs := abs_add (st.capital - (START_CAPITAL + sumPnl st.journal))
        ((option_premium spot - (manage_trade t (option_premium spot)).entry) -
          round2 (option_premium spot - (manage_trade t (option_premium spot)).entry))
      have hcomm : |round2 (option_premium spot - (manage_trade t (option_premium spot)).entry) -
          (option_premium spot - (manage_trade t (option_premium spot)).entry)|
          = |(option_premium spot - (manage_trade t (option_premium spot)).entry) -
            round2 (option_premium spot - (manage_trade t (option_premium spot)).entry)| :=
        abs_sub_comm _ _
      have heqq : st.capital + (option_premium spot - (manage_trade t (option_premium spot)).entry) -
          (START_CAPITAL + (sumPnl st.journal +
            round2 (option_premium spot - (manage_trade t (option_premium spot)).entry)))
          = (st.capital - (START_CAPITAL + sumPnl st.journal)) +
            ((option_premium spot - (manage_trade t (option_premium spot)).entry) -
              round2 (option_premium spot - (manage_trade t (option_premium spot)).entry)) := by
        ring
      rw [heqq]
      push_cast
      calc |(st.capital - (START_CAPITAL + sumPnl st.journal)) +
            ((option_premium spot - (manage_trade t (option_premium spot)).entry) -
              round2 (option_premium spot - (manage_trade t (option_premium spot)).entry))|
          ≤ |st.capital - (START_CAPITAL + sumPnl st.journal)| +
            |(option_premium spot - (manage_trade t (option_premium spot)).entry) -
              round2 (option_premium spot - (manage_trade t (option_premium spot)).entry)| := habs
        _ ≤ (st.journal.length : ℚ) / 200 + 1/200 := by
            rw [← hcomm]
            exact add_le_add h hr
        _ = ((st.journal.length : ℚ) + 1) / 200 := by ring
    · simpa using h

/-- The invariant survives any prefix of the loop. -/
theorem chartRun_capInv_aux (symbol exp : String) :
    ∀ (l : List BarPair) (st st' : ChartState),
      |st.capital - (START_CAPITAL + sumPnl st.journal)| ≤ (st.journal.length : ℚ) / 200 →
      List.foldlM (chartStep symbol exp) st l = Except.ok st' →
      |st'.capital - (START_CAPITAL + sumPnl st'.journal)| ≤ (st'.journal.length : ℚ) / 200 := by
  intro l
  induction l with
  | nil =>
      intro st st' h hfold
      rw [List.foldlM_nil] at hfold
      rw [show (pure st : Except Unit ChartState) = Except.ok st from rfl] at hfold
      rw [← Except.ok.inj hfold]
      exact h
  | cons b l ih =>
      intro st st' h hfold
      rw [List.foldlM_cons] at hfold
      cases hs : chartStep symbol exp st b with
      | error e =>
          rw [hs, show e = () from rfl, exceptBind_error] at hfold
          exact Except.noConfusion hfold
      | ok s1 =>
          rw [hs, exceptBind_ok] at hfold
          obtain ⟨sig, spot, hsig, hclose, rfl⟩ := chartStep_ok symbol exp st b s1 hs
          exact ih _ st' (chartStepCore_capInv symbol exp st sig spot h) hfold

/-- Claim C3 (amended): over any completed run, the final capital equals the
start capital plus the sum of the exact per-trade pnls; the journal records
each pnl rounded to 2 decimals while capital accumulates the unrounded value,
so the final capital matches startCapital plus the journal pnl sum only up to
a rounding error of at most 1/200 (0.005) per journal entry — and capital
still changes only at the bars where a trade leaves OPEN. -/
theorem chart_capital_conservation_upto_rounding (symbol exp : String)
    (rows5 rows15 : List SnapRow) (st : ChartState)
    (h : chartRun symbol exp rows5 rows15 = Except.ok st) :
    |st.capital - (START_CAPITAL + sumPnl st.journal)| ≤ (st.journal.length : ℚ) / 200 :=
  chartRun_capInv_aux symbol exp (chartBars rows5 rows15) initState st
    (by simp [initState, START_CAPITAL, sumPnl]) h

/-- Claim C3 witness: the bound at the empty run. -/
theorem chart_capital_conservation_upto_rounding_witness :
    |initState.capital - (START_CAPITAL + sumPnl initState.journal)|
      ≤ (initState.journal.length : ℚ) / 200 :=
  chart_capital_conservation_upto_rounding "NIFTY" "e" [] [] initState rfl

/-- Claim C3 counterexample: a concrete 3-row run opens a trade at premium
120.004 (entry rounds to 120.00) and closes it at premium 80.001; the exact
pnl -39.999 moves the capital to 99960.001 while the journal records the
rounded pnl -40.00, so the final capital differs from startCapital plus the
journal pnl sum (99960) — the claimed exact equality fails. -/
theorem chart_capital_vs_journal_sum_gap :
    chartRun "NIFTY" "e"
      [SnapRow.mk (some 1) (some 2) (some 50) (some 0),
       SnapRow.mk (some 3) (some 2) (some 20) (some 30001),
       SnapRow.mk (some 3) (some 2) (some 50) (some (80001/4))]
      [SnapRow.mk (some 1) (some 2) (some 50) (some 0),
       SnapRow.mk (some 3) (some 2) (some 20) (some 30001),
       SnapRow.mk (some 3) (some 2) (some 50) (some (80001/4))]
      = Except.ok (ChartState.mk (99960001/1000) none
          [JEntry.mk (Trade.mk "NIFTY" "e" 30000 OptType.CE 120 84 (18001/100) false
            Status.SL_HIT) 80 (-40)]
          [Candle.mk 30001 120 Signal.BUY 100000, Candle.mk (80001/4) 80 Signal.NONE 99960]) ∧
    (99960001/1000 : ℚ) ≠ START_CAPITAL + sumPnl
      [JEntry.mk (Trade.mk "NIFTY" "e" 30000 OptType.CE 120 84 (18001/100) false
        Status.SL_HIT) 80 (-40)] := by
  have h1 : chartStep "NIFTY" "e" initState
      ((SnapRow.mk (some 3) (some 2) (some 20) (some 30001),
        SnapRow.mk (some 1) (some 2) (some 50) (some 0)),
       (SnapRow.mk (some 3) (some 2) (some 20) (some 30001),
        SnapRow.mk (some 1) (some 2) (some 50) (some 0)))
      = Except.ok (ChartState.mk 100000
          (some (Trade.mk "NIFTY" "e" 30000 OptType.CE 120 84 (18001/100) false Status.OPEN))
          [] [Candle.mk 30001 120 Signal.BUY 100000]) := by
    have hbs : barSignal
        ((SnapRow.mk (some 3) (some 2) (some 20) (some 30001),
          SnapRow.mk (some 1) (some 2) (some 50) (some 0)),
         (SnapRow.mk (some 3) (some 2) (some 20) (some 30001),
          SnapRow.mk (some 1) (some 2) (some 50) (some 0)))
        = Except.ok Signal.BUY := by
      norm_num [barSignal, final_signal, ema_signal, rsi_filter, pyAnd, pyLt, pyGt, toSnap,
        Bind.bind, Except.bind, Pure.pure, Except.pure]
    have hsot : start_option_trade Signal.BUY 30001 "NIFTY" "e"
        = Trade.mk "NIFTY" "e" 30000 OptType.CE 120 84 (18001/100) false Status.OPEN := by
      norm_num [start_option_trade, STRIKE_STEP, pick_strike, nearest_strike, rne, round2,
        Int.fract, option_premium]
    have hprem : option_premium (30001 : ℚ) = 30001/250 := by norm_num [option_premium]
    have hmt2 : manage_trade
        (Trade.mk "NIFTY" "e" 30000 OptType.CE 120 84 (18001/100) false Status.OPEN) (30001/250)
        = Trade.mk "NIFTY" "e" 30000 OptType.CE 120 84 (18001/100) false Status.OPEN := by
      norm_num [manage_trade]
    have hr1 : round2 (30001/250 : ℚ) = 120 := by norm_num [round2, rne, Int.fract]
    have hr2 : round2 (100000 : ℚ) = 100000 := by norm_num [round2, rne, Int.fract]
    unfold chartStep
    rw [hbs, exceptBind_ok, show expectNum (some (30001 : ℚ)) = Except.ok 30001 from rfl,
      exceptBind_ok]
    show Except.ok _ = _
    congr 1
    simp only [chartStepCore, hprem, hsot, hmt2, hr1, hr2, initState, START_CAPITAL]
    rw [if_pos (by simp)]
    dsimp only
    rw [if_neg (by simp [hmt2])]
    simp [hmt2]
  have h2 : chartStep "NIFTY" "e"
      (ChartState.mk 100000
          (some (Trade.mk "NIFTY" "e" 30000 OptType.CE 120 84 (18001/100) false Status.OPEN))
          [] [Candle.mk 30001 120 Signal.BUY 100000])
      ((SnapRow.mk (some 3) (some 2) (some 50) (some (80001/4)),
        SnapRow.mk (some 3) (some 2) (some 20) (some 30001)),
       (SnapRow.mk (some 3) (some 2) (some 50) (some (80001/4)),
        SnapRow.mk (some 3) (some 2) (some 20) (some 30001)))
      = Except.ok (ChartState.mk (99960001/1000) none
          [JEntry.mk (Trade.mk "NIFTY" "e" 30000 OptType.CE 120 84 (18001/100) false
            Status.SL_HIT) 80 (-40)]
          [Candle.mk 30001 120 Signal.BUY 100000, Candle.mk (80001/4) 80 Signal.NONE 99960]) := by
    norm_num [chartStep, chartStepCore, barSignal, final_signal, ema_signal, rsi_filter, pyAnd,
      pyLt, pyGt, toSnap, expectNum, option_premium, round2, rne, Int.fract, manage_trade,
      Bind.bind, Except.bind, Pure.pure, Except.pure]
    all_goals decide
  constructor
  · unfold chartRun
    rw [show chartBars
        [SnapRow.mk (some 1) (some 2) (some 50) (some 0),
         SnapRow.mk (some 3) (some 2) (some 20) (some 30001),
         SnapRow.mk (some 3) (some 2) (some 50) (some (80001/4))]
        [SnapRow.mk (some 1) (some 2) (some 50) (some 0),
         SnapRow.mk (some 3) (some 2) (some 20) (some 30001),
         SnapRow.mk (some 3) (some 2) (some 50) (some (80001/4))]
        = [((SnapRow.mk (some 3) (some 2) (some 20) (some 30001),
             SnapRow.mk (some 1) (some 2) (some 50) (some 0)),
            (SnapRow.mk (some 3) (some 2) (some 20) (some 30001),
             SnapRow.mk (some 1) (some 2) (some 50) (some 0))),
           ((SnapRow.mk (some 3) (some 2) (some 50) (some (80001/4)),
             SnapRow.mk (some 3) (some 2) (some 20) (some 30001)),
            (SnapRow.mk (some 3) (some 2) (some 50) (some (80001/4)),
             SnapRow.mk (some 3) (some 2) (some 20) (some 30001)))] from rfl]
    rw [List.foldlM_cons, h1, exceptBind_ok, List.foldlM_cons, h2, exceptBind_ok,
      List.foldlM_nil]
    rfl
  · norm_num [sumPnl, START_CAPITAL]
